import Mathlib

/-!
Shallow embedding of the snarkOS peer-to-peer wire-protocol core:
the `Message` taxonomy with its serializer and deserializer
(src/network/message.rs), the length-delimited frame encoder/decoder
(the `Encoder`/`Decoder` impls in the same file), and the
role-parameterized `Environment` constants (src/environment/mod.rs).

Byte buffers are modelled as `List Nat` (each entry one byte).
Fallible Rust code returns `RustResult`; a Rust panic (out-of-bounds
slice indexing such as `data[0..48]` on a shorter slice) is modelled by
the distinguished outcome `RustResult.panicked`.
-/

namespace Snarkos

/-- Outcome of fallible Rust code: a value, an `Err` (anyhow / io error,
carrying a simplified message text), or a panic (e.g. out-of-bounds slice
indexing). -/
inductive RustResult (α : Type) where
  | ok : α → RustResult α
  | err : String → RustResult α
  | panicked : RustResult α
deriving DecidableEq

/-- True exactly when the outcome is an `Err` (not a success and not a panic). -/
def RustResult.isErr {α : Type} : RustResult α → Bool
  | .err _ => true
  | _ => false

/-- Little-endian encoding of a natural number into `w` bytes; models Rust
`to_le_bytes` and the bincode fixed-int encoding (truncates above `256^w`). -/
def natToLe : Nat → Nat → List Nat
  | 0, _ => []
  | w + 1, n => n % 256 :: natToLe w (n / 256)

/-- Little-endian decoding of a byte list; models `from_le_bytes`. -/
def leDecode : List Nat → Nat
  | [] => 0
  | b :: t => b + 256 * leDecode t

/-- Deferred payload container from message.rs: `Data<T>` is either an
already-decoded object or the still-encoded byte buffer. -/
inductive Data (α : Type) where
  | object : α → Data α
  | buffer : List Nat → Data α
deriving DecidableEq

/-- Modelled from the spec: the external cryptographic payload types
(Block, BlockHeader, BlockLocators, BlockTemplate, PoSWProof) are out of
scope and opaque, so each is modelled by its serialized byte string and its
bincode serialization is the identity.  With that, this is
`Data::serialize_blocking_into` from message.rs: an `Object` is
bincode-serialized, a `Buffer` is written to the sink verbatim. -/
def Data.serializeBlockingInto : Data (List Nat) → List Nat
  | .object x => x
  | .buffer b => b

/-- Modelled from the spec: `NodeType` (helpers/node_type.rs is not among
the sources) is the enumeration Client, Miner, Beacon, Sync, Operator,
Prover, wire-encoded by bincode as a 32-bit little-endian variant index. -/
inductive NodeType where
  | Client
  | Miner
  | Beacon
  | Sync
  | Operator
  | Prover
deriving DecidableEq

/-- Bincode variant index of a `NodeType` value. -/
def NodeType.tag : NodeType → Nat
  | .Client => 0
  | .Miner => 1
  | .Beacon => 2
  | .Sync => 3
  | .Operator => 4
  | .Prover => 5

/-- Bincode variant-index decoding for `NodeType`; an out-of-range index is
a deserialization error (`none`). -/
def NodeType.ofTag (t : Nat) : Option NodeType :=
  if t = 0 then some .Client
  else if t = 1 then some .Miner
  else if t = 2 then some .Beacon
  else if t = 3 then some .Sync
  else if t = 4 then some .Operator
  else if t = 5 then some .Prover
  else none

/-- Modelled from the spec: the node `State` (helpers/status.rs is not among
the sources) is the enumeration Ready, Mining, Peering, Syncing,
ShuttingDown, wire-encoded by bincode as a 32-bit little-endian variant
index. -/
inductive State where
  | Ready
  | Mining
  | Peering
  | Syncing
  | ShuttingDown
deriving DecidableEq

/-- Bincode variant index of a `State` value. -/
def State.tag : State → Nat
  | .Ready => 0
  | .Mining => 1
  | .Peering => 2
  | .Syncing => 3
  | .ShuttingDown => 4

/-- Bincode variant-index decoding for `State`. -/
def State.ofTag (t : Nat) : Option State :=
  if t = 0 then some .Ready
  else if t = 1 then some .Mining
  else if t = 2 then some .Peering
  else if t = 3 then some .Syncing
  else if t = 4 then some .ShuttingDown
  else none

/-- Modelled from the spec: a socket address (IPv4 octets plus port),
bincode-encoded as its 4 octets followed by the 16-bit little-endian
port. -/
structure SocketAddrM where
  ip : List Nat
  port : Nat
deriving DecidableEq

/-- Bincode encoding of one socket address. -/
def serAddr (a : SocketAddrM) : List Nat := a.ip ++ natToLe 2 a.port

/-- The `Message` enumeration of message.rs.  The opaque payload types are
byte strings (see `Data.serializeBlockingInto`); `Unused(PhantomData)`
becomes the nullary `unused`. -/
inductive Message where
  | blockRequest (startHeight endHeight : Nat)
  | blockResponse (block : Data (List Nat))
  | challengeRequest (version forkDepth : Nat) (nodeType : NodeType) (status : State)
      (listenerPort nonce cumulativeWeight : Nat)
  | challengeResponse (header : Data (List Nat))
  | disconnect
  | peerRequest
  | peerResponse (peers : List SocketAddrM)
  | ping (version forkDepth : Nat) (nodeType : NodeType) (status : State)
      (blockHash : List Nat) (header : Data (List Nat))
  | pong (isFork : Option Bool) (locators : Data (List Nat))
  | unconfirmedBlock (blockHeight : Nat) (blockHash : List Nat) (block : Data (List Nat))
  | unconfirmedTransaction (tx : List Nat)
  | poolRegister (address : List Nat)
  | poolRequest (shareDifficulty : Nat) (template : Data (List Nat))
  | poolResponse (address nonce : List Nat) (proof : Data (List Nat))
  | unused
deriving DecidableEq

/-- `Message::id` from message.rs. -/
def Message.id : Message → Nat
  | .blockRequest _ _ => 0
  | .blockResponse _ => 1
  | .challengeRequest _ _ _ _ _ _ _ => 2
  | .challengeResponse _ => 3
  | .disconnect => 4
  | .peerRequest => 5
  | .peerResponse _ => 6
  | .ping _ _ _ _ _ _ => 7
  | .pong _ _ => 8
  | .unconfirmedBlock _ _ _ => 9
  | .unconfirmedTransaction _ => 10
  | .poolRegister _ => 11
  | .poolRequest _ _ => 12
  | .poolResponse _ _ _ => 13
  | .unused => 14

/-- The `is_fork` byte written by the Pong arm of
`Message::serialize_data_into`. -/
def pongForkByte : Option Bool → Nat
  | none => 0
  | some true => 1
  | some false => 2

/-- `Message::serialize_data_into` from message.rs, as the byte list the
writer receives.  Eager integer fields use little-endian bincode fixed-int
bytes; opaque payloads are written through `Data.serializeBlockingInto`. -/
def Message.serializeDataInto : Message → List Nat
  | .blockRequest s e => natToLe 4 s ++ natToLe 4 e
  | .blockResponse d => d.serializeBlockingInto
  | .challengeRequest v fd nt st p n w =>
      natToLe 4 v ++ natToLe 4 fd ++ natToLe 4 nt.tag ++ natToLe 4 st.tag ++
        natToLe 2 p ++ natToLe 8 n ++ natToLe 16 w
  | .challengeResponse d => d.serializeBlockingInto
  | .disconnect => []
  | .peerRequest => []
  | .peerResponse ps => natToLe 8 ps.length ++ (ps.map serAddr).flatten
  | .ping v fd nt st h d =>
      natToLe 4 v ++ natToLe 4 fd ++ natToLe 4 nt.tag ++ natToLe 4 st.tag ++
        h ++ d.serializeBlockingInto
  | .pong f d => pongForkByte f :: d.serializeBlockingInto
  | .unconfirmedBlock ht h d => natToLe 4 ht ++ h ++ d.serializeBlockingInto
  | .unconfirmedTransaction t => t
  | .poolRegister a => a
  | .poolRequest s d => natToLe 8 s ++ d.serializeBlockingInto
  | .poolResponse a n d => a ++ n ++ d.serializeBlockingInto
  | .unused => []

/-- `Message::serialize_into` from message.rs: the 16-bit little-endian ID
followed by the data bytes. -/
def Message.serializeInto (m : Message) : List Nat :=
  natToLe 2 m.id ++ m.serializeDataInto

/-- Bincode sequential read of a `w`-byte little-endian fixed-int field:
running past the end of the input is a deserialization error (`none`). -/
def readLe (w : Nat) (bs : List Nat) : Option (Nat × List Nat) :=
  if bs.length < w then none
  else some (leDecode (bs.take w), bs.drop w)

/-- Bincode sequential read of `k` raw bytes (opaque fixed-width fields such
as the 32-byte block hash). -/
def readBytes (k : Nat) (bs : List Nat) : Option (List Nat × List Nat) :=
  if bs.length < k then none
  else some (bs.take k, bs.drop k)

/-- Bincode `Vec<SocketAddr>` element loop: read `n` addresses of 6 bytes
each; running out of bytes is a deserialization error; trailing bytes are
permitted (bincode's `deserialize` allows trailing content). -/
def parseAddrs : Nat → List Nat → Option (List SocketAddrM)
  | 0, _ => some []
  | n + 1, bs =>
      if bs.length < 6 then none
      else (parseAddrs n (bs.drop 6)).map
        (fun l => ⟨bs.take 4, leDecode ((bs.drop 4).take 2)⟩ :: l)

/-- Bincode deserialization of the ChallengeRequest 7-tuple
(u32, u32, NodeType, State, u16, u64, u128): sequential fixed-int reads,
enum variant indices checked in position, trailing bytes permitted. -/
def parseChallengeTuple (bs : List Nat) :
    Option (Nat × Nat × NodeType × State × Nat × Nat × Nat) := do
  let (v, r1) ← readLe 4 bs
  let (fd, r2) ← readLe 4 r1
  let (ntT, r3) ← readLe 4 r2
  let nt ← NodeType.ofTag ntT
  let (stT, r4) ← readLe 4 r3
  let st ← State.ofTag stT
  let (p, r5) ← readLe 2 r4
  let (n, r6) ← readLe 8 r5
  let (w, _) ← readLe 16 r6
  pure (v, fd, nt, st, p, n, w)

/-- Bincode deserialization of the Ping 5-tuple
(u32, u32, NodeType, State, BlockHash) out of the 48-byte slice. -/
def parsePingTuple (bs : List Nat) :
    Option (Nat × Nat × NodeType × State × List Nat) := do
  let (v, r1) ← readLe 4 bs
  let (fd, r2) ← readLe 4 r1
  let (ntT, r3) ← readLe 4 r2
  let nt ← NodeType.ofTag ntT
  let (stT, r4) ← readLe 4 r3
  let st ← State.ofTag stT
  let (h, _) ← readBytes 32 r4
  pure (v, fd, nt, st, h)

/-- The per-ID dispatch of `Message::deserialize` (message.rs lines
236-283), applied to the data portion after the 2-byte ID.  Rust slice
expressions such as `&data[0..8]`, `&data[0..48]`, `data[0]` panic when the
slice is shorter than the requested range; those sites return
`.panicked`.  `bincode::deserialize` on a short, un-sliced buffer is an
`Err`, never a panic. -/
def Message.deserializeWithId (mid : Nat) (data : List Nat) : RustResult Message :=
  if mid = 0 then
    -- `&data[0..4]` / `&data[4..8]`: panics when fewer than 8 data bytes.
    if data.length < 8 then .panicked
    else .ok (.blockRequest (leDecode (data.take 4)) (leDecode ((data.drop 4).take 4)))
  else if mid = 1 then .ok (.blockResponse (.buffer data))
  else if mid = 2 then
    -- `bincode::deserialize(data)` of the 7-tuple: sequential reads, any
    -- failure (EOF or invalid variant index) is an error, never a panic.
    match parseChallengeTuple data with
    | some (v, fd, nt, st, p, n, w) => .ok (.challengeRequest v fd nt st p n w)
    | none => .err "Invalid ChallengeRequest message"
  else if mid = 3 then .ok (.challengeResponse (.buffer data))
  else if mid = 4 then
    if data.isEmpty then .ok .disconnect else .err "Invalid Disconnect message"
  else if mid = 5 then
    if data.isEmpty then .ok .peerRequest else .err "Invalid PeerRequest message"
  else if mid = 6 then
    -- bincode Vec: u64 little-endian count, then the elements.
    match readLe 8 data with
    | none => .err "Invalid PeerResponse message"
    | some (count, r) =>
        match parseAddrs count r with
        | some l => .ok (.peerResponse l)
        | none => .err "Invalid PeerResponse message"
  else if mid = 7 then
    -- `&data[0..48]`: panics when fewer than 48 data bytes; then
    -- `bincode::deserialize` of the 5-tuple within that slice.
    if data.length < 48 then .panicked
    else
      match parsePingTuple (data.take 48) with
      | some (v, fd, nt, st, h) => .ok (.ping v fd nt st h (.buffer (data.drop 48)))
      | none => .err "Invalid Ping message"
  else if mid = 8 then
    -- `data[0]`: panics when the data portion is empty.
    match data with
    | [] => .panicked
    | b :: rest =>
        if b = 0 then .ok (.pong none (.buffer rest))
        else if b = 1 then .ok (.pong (some true) (.buffer rest))
        else if b = 2 then .ok (.pong (some false) (.buffer rest))
        else .err "Invalid Pong message"
  else if mid = 9 then
    -- `&data[0..4]` / `&data[4..36]`: panics when fewer than 36 data bytes.
    if data.length < 36 then .panicked
    else .ok (.unconfirmedBlock (leDecode (data.take 4)) ((data.drop 4).take 32)
      (.buffer (data.drop 36)))
  else if mid = 10 then .ok (.unconfirmedTransaction data)
  else if mid = 11 then
    if data.length < 32 then .err "Invalid PoolRegister message"
    else .ok (.poolRegister (data.take 32))
  else if mid = 12 then
    -- `&data[0..8]`: panics when fewer than 8 data bytes.
    if data.length < 8 then .panicked
    else .ok (.poolRequest (leDecode (data.take 8)) (.buffer (data.drop 8)))
  else if mid = 13 then
    -- `&data[0..32]` / `&data[32..64]`: panics when fewer than 64 data bytes.
    if data.length < 64 then .panicked
    else .ok (.poolResponse (data.take 32) ((data.drop 32).take 32) (.buffer (data.drop 64)))
  else .err "Invalid message ID"

/-- `Message::deserialize` from message.rs: a buffer shorter than the
2-byte ID is an error; otherwise the 16-bit little-endian ID is split off
and dispatched. -/
def Message.deserialize : List Nat → RustResult Message
  | b0 :: b1 :: data => Message.deserializeWithId (b0 + 256 * b1) data
  | _ => .err "Invalid message buffer"

/-- The message produced by deserializing a serialized message: each
deferred `Data` field comes back in the `Buffer` state holding its encoded
bytes; all eager fields are reconstructed. -/
def Message.decodeForm : Message → Message
  | .blockResponse d => .blockResponse (.buffer d.serializeBlockingInto)
  | .challengeResponse d => .challengeResponse (.buffer d.serializeBlockingInto)
  | .ping v fd nt st h d => .ping v fd nt st h (.buffer d.serializeBlockingInto)
  | .pong f d => .pong f (.buffer d.serializeBlockingInto)
  | .unconfirmedBlock ht h d => .unconfirmedBlock ht h (.buffer d.serializeBlockingInto)
  | .poolRequest s d => .poolRequest s (.buffer d.serializeBlockingInto)
  | .poolResponse a n d => .poolResponse a n (.buffer d.serializeBlockingInto)
  | m => m

/-- Deferred fields are compared by their encoded byte buffers. -/
def dataEquiv (d d' : Data (List Nat)) : Prop :=
  d.serializeBlockingInto = d'.serializeBlockingInto

/-- Structural equality of messages in which deferred `Data` fields are
compared by their encoded byte buffers and all other fields by equality. -/
def msgEquiv : Message → Message → Prop
  | .blockRequest a b, .blockRequest a' b' => a = a' ∧ b = b'
  | .blockResponse d, .blockResponse d' => dataEquiv d d'
  | .challengeRequest v fd nt st p n w, .challengeRequest v' fd' nt' st' p' n' w' =>
      v = v' ∧ fd = fd' ∧ nt = nt' ∧ st = st' ∧ p = p' ∧ n = n' ∧ w = w'
  | .challengeResponse d, .challengeResponse d' => dataEquiv d d'
  | .disconnect, .disconnect => True
  | .peerRequest, .peerRequest => True
  | .peerResponse ps, .peerResponse ps' => ps = ps'
  | .ping v fd nt st h d, .ping v' fd' nt' st' h' d' =>
      v = v' ∧ fd = fd' ∧ nt = nt' ∧ st = st' ∧ h = h' ∧ dataEquiv d d'
  | .pong f d, .pong f' d' => f = f' ∧ dataEquiv d d'
  | .unconfirmedBlock a h d, .unconfirmedBlock a' h' d' =>
      a = a' ∧ h = h' ∧ dataEquiv d d'
  | .unconfirmedTransaction t, .unconfirmedTransaction t' => t = t'
  | .poolRegister a, .poolRegister a' => a = a'
  | .poolRequest s d, .poolRequest s' d' => s = s' ∧ dataEquiv d d'
  | .poolResponse a n d, .poolResponse a' n' d' => a = a' ∧ n = n' ∧ dataEquiv d d'
  | .unused, .unused => True
  | _, _ => False

/-- All entries of a list are byte values. -/
def bytesOk (l : List Nat) : Prop := ∀ b ∈ l, b < 256

/-- Well-formedness of one socket address: 4 octets, 16-bit port. -/
def SocketAddrM.wf (a : SocketAddrM) : Prop :=
  a.ip.length = 4 ∧ bytesOk a.ip ∧ a.port < 256 ^ 2

/-- Well-formedness of a deferred payload: its bytes are byte values. -/
def Data.wf : Data (List Nat) → Prop
  | .object x => bytesOk x
  | .buffer b => bytesOk b

/-- Well-formedness of a message: every integer field fits its wire width,
hashes / addresses / nonces are 32 bytes, and every byte list holds byte
values. -/
def Message.wf : Message → Prop
  | .blockRequest s e => s < 256 ^ 4 ∧ e < 256 ^ 4
  | .blockResponse d => d.wf
  | .challengeRequest v fd _ _ p n w =>
      v < 256 ^ 4 ∧ fd < 256 ^ 4 ∧ p < 256 ^ 2 ∧ n < 256 ^ 8 ∧ w < 256 ^ 16
  | .challengeResponse d => d.wf
  | .disconnect => True
  | .peerRequest => True
  | .peerResponse ps => ps.length < 256 ^ 8 ∧ ∀ a ∈ ps, a.wf
  | .ping v fd _ _ h d =>
      v < 256 ^ 4 ∧ fd < 256 ^ 4 ∧ h.length = 32 ∧ bytesOk h ∧ d.wf
  | .pong _ d => d.wf
  | .unconfirmedBlock ht h d => ht < 256 ^ 4 ∧ h.length = 32 ∧ bytesOk h ∧ d.wf
  | .unconfirmedTransaction t => bytesOk t
  | .poolRegister a => a.length = 32 ∧ bytesOk a
  | .poolRequest s d => s < 256 ^ 8 ∧ d.wf
  | .poolResponse a n d =>
      a.length = 32 ∧ bytesOk a ∧ n.length = 32 ∧ bytesOk n ∧ d.wf
  | .unused => True

instance instBytesOkDecidable (l : List Nat) : Decidable (bytesOk l) :=
  inferInstanceAs (Decidable (∀ b ∈ l, b < 256))

instance instSocketAddrWfDecidable (a : SocketAddrM) : Decidable a.wf :=
  inferInstanceAs (Decidable (a.ip.length = 4 ∧ bytesOk a.ip ∧ a.port < 256 ^ 2))

instance instDataWfDecidable : (d : Data (List Nat)) → Decidable d.wf
  | .object x => inferInstanceAs (Decidable (bytesOk x))
  | .buffer b => inferInstanceAs (Decidable (bytesOk b))

instance instMessageWfDecidable : (m : Message) → Decidable m.wf
  | .blockRequest s e => inferInstanceAs (Decidable (s < 256 ^ 4 ∧ e < 256 ^ 4))
  | .blockResponse d => inferInstanceAs (Decidable d.wf)
  | .challengeRequest v fd _ _ p n w =>
      inferInstanceAs (Decidable (v < 256 ^ 4 ∧ fd < 256 ^ 4 ∧ p < 256 ^ 2 ∧
        n < 256 ^ 8 ∧ w < 256 ^ 16))
  | .challengeResponse d => inferInstanceAs (Decidable d.wf)
  | .disconnect => inferInstanceAs (Decidable True)
  | .peerRequest => inferInstanceAs (Decidable True)
  | .peerResponse ps =>
      inferInstanceAs (Decidable (ps.length < 256 ^ 8 ∧ ∀ a ∈ ps, a.wf))
  | .ping v fd _ _ h d =>
      inferInstanceAs (Decidable (v < 256 ^ 4 ∧ fd < 256 ^ 4 ∧ h.length = 32 ∧
        bytesOk h ∧ d.wf))
  | .pong _ d => inferInstanceAs (Decidable d.wf)
  | .unconfirmedBlock ht h d =>
      inferInstanceAs (Decidable (ht < 256 ^ 4 ∧ h.length = 32 ∧ bytesOk h ∧ d.wf))
  | .unconfirmedTransaction t => inferInstanceAs (Decidable (bytesOk t))
  | .poolRegister a => inferInstanceAs (Decidable (a.length = 32 ∧ bytesOk a))
  | .poolRequest sd d => inferInstanceAs (Decidable (sd < 256 ^ 8 ∧ d.wf))
  | .poolResponse a n d =>
      inferInstanceAs (Decidable (a.length = 32 ∧ bytesOk a ∧ n.length = 32 ∧
        bytesOk n ∧ d.wf))
  | .unused => inferInstanceAs (Decidable True)

/-- Default `Environment::MAXIMUM_MESSAGE_SIZE` (128 MiB). -/
def defaultMaximumMessageSize : Nat := 128 * 1024 * 1024

/-- One invocation of the frame decoder: result, the readable buffer
afterwards, and the size passed to `source.reserve` if it was called. -/
structure DecodeStep where
  result : RustResult (Option Message)
  source : List Nat
  reserved : Option Nat
deriving DecidableEq

/-- `Decoder::decode` from message.rs, parameterized by
`E::MAXIMUM_MESSAGE_SIZE`: with fewer than 4 bytes yield "need more data";
read the 32-bit little-endian length marker and fail with `InvalidData`
when it exceeds the ceiling; with fewer than `4 + length` bytes reserve the
shortfall and yield "need more data"; otherwise deserialize the
`length`-byte slice after the marker and advance the buffer past the
frame. -/
def decoderDecode (maxSize : Nat) (source : List Nat) : DecodeStep :=
  if source.length < 4 then ⟨.ok none, source, none⟩
  else if maxSize < leDecode (source.take 4) then ⟨.err "Frame is too large", source, none⟩
  else if source.length < 4 + leDecode (source.take 4) then
    ⟨.ok none, source, some (4 + leDecode (source.take 4) - source.length)⟩
  else
    match Message.deserialize ((source.drop 4).take (leDecode (source.take 4))) with
    | .ok m => ⟨.ok (some m), source.drop (4 + leDecode (source.take 4)), none⟩
    | .err e => ⟨.err e, source.drop (4 + leDecode (source.take 4)), none⟩
    | .panicked => ⟨.panicked, source, none⟩

/-- `Encoder::encode` from message.rs, on a destination buffer `dst`:
append 4 reserved zero bytes, append the serialized message, then
overwrite the absolute first 4 bytes of the whole buffer with the length
of everything after absolute offset 4 (`dst[4..].len() as u32`). -/
def encoderEncode (m : Message) (dst : List Nat) : List Nat :=
  natToLe 4 ((dst ++ natToLe 4 0 ++ m.serializeInto).length - 4) ++
    (dst ++ natToLe 4 0 ++ m.serializeInto).drop 4

/-! Helper lemmas about byte encodings and list slicing. -/

theorem natToLe_length (w n : Nat) : (natToLe w n).length = w := by
  induction w generalizing n with
  | zero => rfl
  | succ w ih => simp [natToLe, ih]

theorem leDecode_natToLe {w n : Nat} (h : n < 256 ^ w) : leDecode (natToLe w n) = n := by
  induction w generalizing n with
  | zero =>
      rw [pow_zero, Nat.lt_one_iff] at h
      simp [h, natToLe, leDecode]
  | succ w ih =>
      have h2 : n / 256 < 256 ^ w := by
        rw [Nat.div_lt_iff_lt_mul (by norm_num : (0:Nat) < 256)]
        rw [pow_succ] at h
        exact h
      simp [natToLe, leDecode, ih h2]
      omega

theorem take_app {l1 l2 : List Nat} {n : Nat} (h : l1.length = n) :
    (l1 ++ l2).take n = l1 := by
  subst h
  exact List.take_left l1 l2

theorem drop_app {l1 l2 : List Nat} {n : Nat} (h : l1.length = n) :
    (l1 ++ l2).drop n = l2 := by
  subst h
  exact List.drop_left l1 l2

theorem drop_app_add {l1 l2 : List Nat} (b : Nat) {a : Nat} (h : l1.length = a) :
    (l1 ++ l2).drop (a + b) = l2.drop b := by
  subst h
  rw [← List.drop_drop, List.drop_left]

theorem take_all_len {l : List Nat} {n : Nat} (h : l.length = n) : l.take n = l := by
  subst h
  exact List.take_length l

theorem readLe_app {w n : Nat} (rest : List Nat) (h : n < 256 ^ w) :
    readLe w (natToLe w n ++ rest) = some (n, rest) := by
  unfold readLe
  rw [if_neg (by simp [natToLe_length]), take_app (natToLe_length w n),
    drop_app (natToLe_length w n), leDecode_natToLe h]

theorem readBytes_app {k : Nat} {l : List Nat} (rest : List Nat) (h : l.length = k) :
    readBytes k (l ++ rest) = some (l, rest) := by
  unfold readBytes
  rw [if_neg (by simp [h]), take_app h, drop_app h]

theorem readLe_exact {w n : Nat} (h : n < 256 ^ w) :
    readLe w (natToLe w n) = some (n, []) := by
  unfold readLe
  rw [if_neg (by simp [natToLe_length]), take_all_len (natToLe_length w n),
    leDecode_natToLe h, List.drop_eq_nil_of_le (by simp [natToLe_length])]

theorem deserialize_cons (b0 b1 : Nat) (data : List Nat) :
    Message.deserialize (b0 :: b1 :: data) = Message.deserializeWithId (b0 + 256 * b1) data :=
  rfl

theorem nodeType_ofTag_tag (nt : NodeType) : NodeType.ofTag nt.tag = some nt := by
  cases nt <;> rfl

theorem state_ofTag_tag (st : State) : State.ofTag st.tag = some st := by
  cases st <;> rfl

theorem nodeType_tag_lt (nt : NodeType) : nt.tag < 256 ^ 4 := by
  cases nt <;> decide

theorem state_tag_lt (st : State) : st.tag < 256 ^ 4 := by
  cases st <;> decide


theorem parseAddrs_flatten (l : List SocketAddrM) (rest : List Nat)
    (hwf : ∀ a ∈ l, a.wf) :
    parseAddrs l.length ((l.map serAddr).flatten ++ rest) = some l := by
  induction l generalizing rest with
  | nil => rfl
  | cons a l ih =>
      obtain ⟨hip, _, hport⟩ := hwf a (List.mem_cons_self a l)
      have hwf' : ∀ x ∈ l, x.wf := fun x hx => hwf x (List.mem_cons_of_mem a hx)
      have hlen : (serAddr a).length = 6 := by
        simp [serAddr, natToLe_length, hip]
      simp only [List.map_cons, List.flatten_cons, List.length_cons, List.append_assoc]
      rw [parseAddrs]
      have h6 : ¬ ((serAddr a ++ ((l.map serAddr).flatten ++ rest)).length < 6) := by
        simp [hlen]
      rw [if_neg h6]
      have hdrop : (serAddr a ++ ((l.map serAddr).flatten ++ rest)).drop 6 =
          (l.map serAddr).flatten ++ rest := drop_app hlen
      have htake : (serAddr a ++ ((l.map serAddr).flatten ++ rest)).take 4 = a.ip := by
        rw [serAddr, List.append_assoc]
        exact take_app hip
      have hdrop4 : (serAddr a ++ ((l.map serAddr).flatten ++ rest)).drop 4 =
          natToLe 2 a.port ++ ((l.map serAddr).flatten ++ rest) := by
        rw [serAddr, List.append_assoc]
        exact drop_app hip
      have hport2 : ((serAddr a ++ ((l.map serAddr).flatten ++ rest)).drop 4).take 2 =
          natToLe 2 a.port := by
        rw [hdrop4]
        exact take_app (natToLe_length 2 a.port)
      rw [hdrop, ih rest hwf', htake, hport2, leDecode_natToLe hport]
      rfl

/-- The round-trip core: deserializing the serialization of any well-formed
message other than the reserved `Unused` variant succeeds and yields its
decoded form (deferred fields in the `Buffer` state). -/
theorem parseAddrs_flatten_nil (l : List SocketAddrM) (hwf : ∀ a ∈ l, a.wf) :
    parseAddrs l.length (l.map serAddr).flatten = some l := by
  have h := parseAddrs_flatten l [] hwf
  rwa [List.append_nil] at h

/-! Per-ID unfolding equations for `Message.deserializeWithId`. -/

theorem dwi0 (data : List Nat) : Message.deserializeWithId 0 data =
    (if data.length < 8 then .panicked
     else .ok (.blockRequest (leDecode (data.take 4)) (leDecode ((data.drop 4).take 4)))) := rfl

theorem dwi1 (data : List Nat) : Message.deserializeWithId 1 data =
    .ok (.blockResponse (.buffer data)) := rfl

theorem dwi2 (data : List Nat) : Message.deserializeWithId 2 data =
    (match parseChallengeTuple data with
     | some (v, fd, nt, st, p, n, w) => .ok (.challengeRequest v fd nt st p n w)
     | none => .err "Invalid ChallengeRequest message") := rfl

theorem dwi3 (data : List Nat) : Message.deserializeWithId 3 data =
    .ok (.challengeResponse (.buffer data)) := rfl

theorem dwi4 (data : List Nat) : Message.deserializeWithId 4 data =
    (if data.isEmpty then .ok .disconnect else .err "Invalid Disconnect message") := rfl

theorem dwi5 (data : List Nat) : Message.deserializeWithId 5 data =
    (if data.isEmpty then .ok .peerRequest else .err "Invalid PeerRequest message") := rfl

theorem dwi6 (data : List Nat) : Message.deserializeWithId 6 data =
    (match readLe 8 data with
     | none => .err "Invalid PeerResponse message"
     | some (count, r) =>
         match parseAddrs count r with
         | some l => .ok (.peerResponse l)
         | none => .err "Invalid PeerResponse message") := rfl

theorem dwi7 (data : List Nat) : Message.deserializeWithId 7 data =
    (if data.length < 48 then .panicked
     else
       match parsePingTuple (data.take 48) with
       | some (v, fd, nt, st, h) => .ok (.ping v fd nt st h (.buffer (data.drop 48)))
       | none => .err "Invalid Ping message") := rfl

theorem dwi8 (data : List Nat) : Message.deserializeWithId 8 data =
    (match data with
     | [] => .panicked
     | b :: rest =>
         if b = 0 then .ok (.pong none (.buffer rest))
         else if b = 1 then .ok (.pong (some true) (.buffer rest))
         else if b = 2 then .ok (.pong (some false) (.buffer rest))
         else .err "Invalid Pong message") := rfl

theorem dwi9 (data : List Nat) : Message.deserializeWithId 9 data =
    (if data.length < 36 then .panicked
     else .ok (.unconfirmedBlock (leDecode (data.take 4)) ((data.drop 4).take 32)
       (.buffer (data.drop 36)))) := rfl

theorem dwi10 (data : List Nat) : Message.deserializeWithId 10 data =
    .ok (.unconfirmedTransaction data) := rfl

theorem dwi11 (data : List Nat) : Message.deserializeWithId 11 data =
    (if data.length < 32 then .err "Invalid PoolRegister message"
     else .ok (.poolRegister (data.take 32))) := rfl

theorem dwi12 (data : List Nat) : Message.deserializeWithId 12 data =
    (if data.length < 8 then .panicked
     else .ok (.poolRequest (leDecode (data.take 8)) (.buffer (data.drop 8)))) := rfl

theorem dwi13 (data : List Nat) : Message.deserializeWithId 13 data =
    (if data.length < 64 then .panicked
     else .ok (.poolResponse (data.take 32) ((data.drop 32).take 32)
       (.buffer (data.drop 64)))) := rfl

set_option maxHeartbeats 800000 in
/-- The round-trip core: deserializing the serialization of any well-formed
message other than the reserved `Unused` variant succeeds and yields its
decoded form (deferred fields in the `Buffer` state). -/
theorem deserialize_serializeInto (m : Message) (hwf : m.wf) (hm : m ≠ .unused) :
    Message.deserialize m.serializeInto = .ok m.decodeForm := by
  cases m with
  | blockRequest s e =>
      obtain ⟨hs, he⟩ := hwf
      show Message.deserialize
        (natToLe 2 0 ++ (natToLe 4 s ++ natToLe 4 e)) = .ok (.blockRequest s e)
      rw [show natToLe 2 0 = [0, 0] from rfl, List.cons_append, List.cons_append,
        List.nil_append, deserialize_cons, show (0 + 256 * 0 : Nat) = 0 from rfl, dwi0]
      rw [if_neg (by simp only [List.length_append, natToLe_length]; omega),
        take_app (natToLe_length 4 s), drop_app (natToLe_length 4 s),
        take_all_len (natToLe_length 4 e), leDecode_natToLe hs, leDecode_natToLe he]
  | blockResponse d =>
      show Message.deserialize (natToLe 2 1 ++ d.serializeBlockingInto) =
        .ok (.blockResponse (.buffer d.serializeBlockingInto))
      rw [show natToLe 2 1 = [1, 0] from rfl, List.cons_append, List.cons_append,
        List.nil_append, deserialize_cons, show (1 + 256 * 0 : Nat) = 1 from rfl, dwi1]
  | challengeRequest v fd nt st p n w =>
      obtain ⟨hv, hfd, hp, hn, hw⟩ := hwf
      show Message.deserialize
        (natToLe 2 2 ++ (natToLe 4 v ++ natToLe 4 fd ++ natToLe 4 nt.tag ++
          natToLe 4 st.tag ++ natToLe 2 p ++ natToLe 8 n ++ natToLe 16 w)) =
        .ok (.challengeRequest v fd nt st p n w)
      rw [show natToLe 2 2 = [2, 0] from rfl, List.cons_append, List.cons_append,
        List.nil_append, deserialize_cons, show (2 + 256 * 0 : Nat) = 2 from rfl, dwi2]
      simp only [List.append_assoc]
      have hparse : parseChallengeTuple
          (natToLe 4 v ++ (natToLe 4 fd ++ (natToLe 4 nt.tag ++ (natToLe 4 st.tag ++
            (natToLe 2 p ++ (natToLe 8 n ++ natToLe 16 w)))))) =
          some (v, fd, nt, st, p, n, w) := by
        simp [parseChallengeTuple, readLe_app _ hv, readLe_app _ hfd,
          readLe_app _ (nodeType_tag_lt nt), nodeType_ofTag_tag,
          readLe_app _ (state_tag_lt st), state_ofTag_tag,
          readLe_app _ hp, readLe_app _ hn, readLe_exact hw]
      rw [hparse]
  | challengeResponse d =>
      show Message.deserialize (natToLe 2 3 ++ d.serializeBlockingInto) =
        .ok (.challengeResponse (.buffer d.serializeBlockingInto))
      rw [show natToLe 2 3 = [3, 0] from rfl, List.cons_append, List.cons_append,
        List.nil_append, deserialize_cons, show (3 + 256 * 0 : Nat) = 3 from rfl, dwi3]
  | disconnect =>
      show Message.deserialize (natToLe 2 4 ++ []) = .ok .disconnect
      rw [show natToLe 2 4 = [4, 0] from rfl, List.cons_append, List.cons_append,
        List.nil_append, deserialize_cons, show (4 + 256 * 0 : Nat) = 4 from rfl, dwi4]
      rfl
  | peerRequest =>
      show Message.deserialize (natToLe 2 5 ++ []) = .ok .peerRequest
      rw [show natToLe 2 5 = [5, 0] from rfl, List.cons_append, List.cons_append,
        List.nil_append, deserialize_cons, show (5 + 256 * 0 : Nat) = 5 from rfl, dwi5]
      rfl
  | peerResponse ps =>
      obtain ⟨hlen, hall⟩ := hwf
      show Message.deserialize
        (natToLe 2 6 ++ (natToLe 8 ps.length ++ (ps.map serAddr).flatten)) =
        .ok (.peerResponse ps)
      rw [show natToLe 2 6 = [6, 0] from rfl, List.cons_append, List.cons_append,
        List.nil_append, deserialize_cons, show (6 + 256 * 0 : Nat) = 6 from rfl, dwi6,
        readLe_app _ hlen]
      simp [parseAddrs_flatten_nil ps hall]
  | ping v fd nt st h d =>
      obtain ⟨hv, hfd, hh, _, _⟩ := hwf
      show Message.deserialize
        (natToLe 2 7 ++ (natToLe 4 v ++ natToLe 4 fd ++ natToLe 4 nt.tag ++
          natToLe 4 st.tag ++ h ++ d.serializeBlockingInto)) =
        .ok (.ping v fd nt st h (.buffer d.serializeBlockingInto))
      rw [show natToLe 2 7 = [7, 0] from rfl, List.cons_append, List.cons_append,
        List.nil_append, deserialize_cons, show (7 + 256 * 0 : Nat) = 7 from rfl, dwi7]
      simp only [List.append_assoc]
      have hsplit : natToLe 4 v ++ (natToLe 4 fd ++ (natToLe 4 nt.tag ++ (natToLe 4 st.tag ++
          (h ++ d.serializeBlockingInto)))) =
          (natToLe 4 v ++ (natToLe 4 fd ++ (natToLe 4 nt.tag ++ (natToLe 4 st.tag ++ h)))) ++
            d.serializeBlockingInto := by
        simp [List.append_assoc]
      have hlen48 : (natToLe 4 v ++ (natToLe 4 fd ++ (natToLe 4 nt.tag ++ (natToLe 4 st.tag ++
          h)))).length = 48 := by
        simp [natToLe_length, hh]
      have hrb : readBytes 32 h = some (h, []) := by
        unfold readBytes
        rw [if_neg (by simp [hh]), ← hh, List.take_length, List.drop_length]
      have hparse : parsePingTuple
          (natToLe 4 v ++ (natToLe 4 fd ++ (natToLe 4 nt.tag ++ (natToLe 4 st.tag ++ h)))) =
          some (v, fd, nt, st, h) := by
        simp [parsePingTuple, readLe_app _ hv, readLe_app _ hfd,
          readLe_app _ (nodeType_tag_lt nt), nodeType_ofTag_tag,
          readLe_app _ (state_tag_lt st), state_ofTag_tag, hrb]
      rw [if_neg (by rw [hsplit]; simp only [List.length_append, hlen48]; omega),
        hsplit, take_app hlen48, drop_app hlen48, hparse]
  | pong f d =>
      show Message.deserialize
        (natToLe 2 8 ++ (pongForkByte f :: d.serializeBlockingInto)) =
        .ok (.pong f (.buffer d.serializeBlockingInto))
      rw [show natToLe 2 8 = [8, 0] from rfl, List.cons_append, List.cons_append,
        List.nil_append, deserialize_cons, show (8 + 256 * 0 : Nat) = 8 from rfl, dwi8]
      cases f with
      | none => rfl
      | some b => cases b <;> rfl
  | unconfirmedBlock ht h d =>
      obtain ⟨hht, hh, _, _⟩ := hwf
      show Message.deserialize
        (natToLe 2 9 ++ (natToLe 4 ht ++ h ++ d.serializeBlockingInto)) =
        .ok (.unconfirmedBlock ht h (.buffer d.serializeBlockingInto))
      rw [show natToLe 2 9 = [9, 0] from rfl, List.cons_append, List.cons_append,
        List.nil_append, deserialize_cons, show (9 + 256 * 0 : Nat) = 9 from rfl, dwi9]
      simp only [List.append_assoc]
      have hd36 : (natToLe 4 ht ++ (h ++ d.serializeBlockingInto)).drop 36 =
          (h ++ d.serializeBlockingInto).drop 32 :=
        drop_app_add 32 (natToLe_length 4 ht)
      rw [if_neg (by simp only [List.length_append, natToLe_length, hh]; omega),
        take_app (natToLe_length 4 ht), leDecode_natToLe hht,
        drop_app (natToLe_length 4 ht), take_app hh, hd36, drop_app hh]
  | unconfirmedTransaction t =>
      show Message.deserialize (natToLe 2 10 ++ t) = .ok (.unconfirmedTransaction t)
      rw [show natToLe 2 10 = [10, 0] from rfl, List.cons_append, List.cons_append,
        List.nil_append, deserialize_cons, show (10 + 256 * 0 : Nat) = 10 from rfl, dwi10]
  | poolRegister a =>
      obtain ⟨ha, _⟩ := hwf
      show Message.deserialize (natToLe 2 11 ++ a) = .ok (.poolRegister a)
      rw [show natToLe 2 11 = [11, 0] from rfl, List.cons_append, List.cons_append,
        List.nil_append, deserialize_cons, show (11 + 256 * 0 : Nat) = 11 from rfl, dwi11]
      rw [if_neg (by simp only [ha]; omega), take_all_len ha]
  | poolRequest s d =>
      obtain ⟨hs, _⟩ := hwf
      show Message.deserialize
        (natToLe 2 12 ++ (natToLe 8 s ++ d.serializeBlockingInto)) =
        .ok (.poolRequest s (.buffer d.serializeBlockingInto))
      rw [show natToLe 2 12 = [12, 0] from rfl, List.cons_append, List.cons_append,
        List.nil_append, deserialize_cons, show (12 + 256 * 0 : Nat) = 12 from rfl, dwi12]
      rw [if_neg (by simp only [List.length_append, natToLe_length]; omega),
        take_app (natToLe_length 8 s), leDecode_natToLe hs, drop_app (natToLe_length 8 s)]
  | poolResponse a n d =>
      obtain ⟨ha, _, hn, _, _⟩ := hwf
      show Message.deserialize
        (natToLe 2 13 ++ (a ++ n ++ d.serializeBlockingInto)) =
        .ok (.poolResponse a n (.buffer d.serializeBlockingInto))
      rw [show natToLe 2 13 = [13, 0] from rfl, List.cons_append, List.cons_append,
        List.nil_append, deserialize_cons, show (13 + 256 * 0 : Nat) = 13 from rfl, dwi13]
      simp only [List.append_assoc]
      have hd64 : (a ++ (n ++ d.serializeBlockingInto)).drop 64 =
          (n ++ d.serializeBlockingInto).drop 32 :=
        drop_app_add 32 ha
      rw [if_neg (by simp only [List.length_append, ha, hn]; omega), take_app ha,
        drop_app ha, take_app hn, hd64, drop_app hn]
  | unused => exact absurd rfl hm

/-! Environment constants (src/environment/mod.rs). -/

/-- The `Environment` trait constants relevant to policy, as one record.
The network-dependent ports are omitted (they depend on the external
`Network::NETWORK_ID`). -/
structure EnvConfig where
  nodeType : NodeType
  messageVersion : Nat
  coinbaseIsPublic : Bool
  beaconNodes : List String
  syncNodes : List String
  heartbeatInSecs : Nat
  connectionTimeoutInMillis : Nat
  pingSleepInSecs : Nat
  radioSilenceInSecs : Nat
  failureExpiryTimeInSecs : Nat
  minimumNumberOfPeers : Nat
  maximumNumberOfPeers : Nat
  maximumConnectionFailures : Nat
  maximumCandidatePeers : Nat
  maximumMessageSize : Nat
  maximumBlockRequest : Nat
  maximumNumberOfFailures : Nat
deriving DecidableEq

/-- Default `SYNC_NODES` of the `Environment` trait. -/
def defaultSyncNodes : List String := ["127.0.0.1:4135"]

/-- The hard-coded bootstrap list each Trial preset installs as `SYNC_NODES`. -/
def trialSyncNodes : List String :=
  ["144.126.219.193:4132", "165.232.145.194:4132", "143.198.164.241:4132",
   "188.166.7.13:4132", "167.99.40.226:4132", "159.223.124.150:4132",
   "137.184.192.155:4132", "147.182.213.228:4132", "137.184.202.162:4132",
   "159.223.118.35:4132", "161.35.106.91:4132", "157.245.133.62:4132",
   "143.198.166.150:4132"]

/-- The trait-level default constants of `Environment`, given the three
required (defaultless) items NODE_TYPE, MINIMUM_NUMBER_OF_PEERS and
MAXIMUM_NUMBER_OF_PEERS. -/
def defaultEnv (nt : NodeType) (minPeers maxPeers : Nat) : EnvConfig :=
  { nodeType := nt
    messageVersion := 12
    coinbaseIsPublic := false
    beaconNodes := []
    syncNodes := defaultSyncNodes
    heartbeatInSecs := 9
    connectionTimeoutInMillis := 500
    pingSleepInSecs := 60
    radioSilenceInSecs := 210
    failureExpiryTimeInSecs := 7200
    minimumNumberOfPeers := minPeers
    maximumNumberOfPeers := maxPeers
    maximumConnectionFailures := 3
    maximumCandidatePeers := 10000
    maximumMessageSize := 128 * 1024 * 1024
    maximumBlockRequest := 250
    maximumNumberOfFailures := 1024 }

/-- The `Client` preset. -/
def clientEnv : EnvConfig := defaultEnv .Client 2 21

/-- The `Miner` preset. -/
def minerEnv : EnvConfig :=
  { defaultEnv .Miner 1 21 with coinbaseIsPublic := true }

/-- The `Operator` preset. -/
def operatorEnv : EnvConfig :=
  { defaultEnv .Operator 1 1000 with coinbaseIsPublic := true }

/-- The `Prover` preset. -/
def proverEnv : EnvConfig :=
  { defaultEnv .Prover 1 21 with coinbaseIsPublic := true }

/-- The `SyncNode` preset. -/
def syncNodeEnv : EnvConfig :=
  { defaultEnv .Sync 35 1024 with heartbeatInSecs := 5 }

/-- The `ClientTrial` preset. -/
def clientTrialEnv : EnvConfig :=
  { defaultEnv .Client 11 31 with syncNodes := trialSyncNodes }

/-- The `MinerTrial` preset. -/
def minerTrialEnv : EnvConfig :=
  { defaultEnv .Miner 11 21 with syncNodes := trialSyncNodes, coinbaseIsPublic := true }

/-- The `OperatorTrial` preset. -/
def operatorTrialEnv : EnvConfig :=
  { defaultEnv .Operator 11 1000 with syncNodes := trialSyncNodes, coinbaseIsPublic := true }

/-- The `ProverTrial` preset. -/
def proverTrialEnv : EnvConfig :=
  { defaultEnv .Prover 11 21 with syncNodes := trialSyncNodes, coinbaseIsPublic := true }

/-- Per-thread stack size of `Environment::thread_pool` (8 MiB). -/
def threadPoolStackSize : Nat := 8 * 1024 * 1024

/-- Thread count of `Environment::thread_pool`:
`(num_cpus::get() * 7 / 8).max(2)` (integer, hence flooring, division). -/
def threadPoolNumThreads (cpus : Nat) : Nat := max (cpus * 7 / 8) 2

/-! Lemmas connecting serialization, its decoded form, and the framing. -/

theorem msgEquiv_decodeForm (m : Message) : msgEquiv m.decodeForm m := by
  cases m <;> simp [Message.decodeForm, msgEquiv, dataEquiv, Data.serializeBlockingInto]

theorem serializeInto_decodeForm (m : Message) :
    m.decodeForm.serializeInto = m.serializeInto := by
  cases m <;>
    simp [Message.decodeForm, Message.serializeInto, Message.id,
      Message.serializeDataInto, Data.serializeBlockingInto]

theorem encoderEncode_nil (m : Message) :
    encoderEncode m [] = natToLe 4 m.serializeInto.length ++ m.serializeInto := by
  unfold encoderEncode
  simp only [List.nil_append]
  rw [drop_app (natToLe_length 4 0),
    show (natToLe 4 0 ++ m.serializeInto).length - 4 = m.serializeInto.length by
      simp [List.length_append, natToLe_length]]

theorem decodeStep_frame (m : Message) (maxSize : Nat) (hwf : m.wf) (hm : m ≠ .unused)
    (hfit : m.serializeInto.length ≤ maxSize) (hsmall : m.serializeInto.length < 256 ^ 4) :
    decoderDecode maxSize (encoderEncode m []) =
      ⟨.ok (some m.decodeForm), [], none⟩ := by
  rw [encoderEncode_nil]
  have htake : (natToLe 4 m.serializeInto.length ++ m.serializeInto).take 4 =
      natToLe 4 m.serializeInto.length := take_app (natToLe_length 4 _)
  have hlenfield : leDecode ((natToLe 4 m.serializeInto.length ++ m.serializeInto).take 4) =
      m.serializeInto.length := by
    rw [htake, leDecode_natToLe hsmall]
  have hlen : (natToLe 4 m.serializeInto.length ++ m.serializeInto).length =
      4 + m.serializeInto.length := by
    simp [List.length_append, natToLe_length]
  unfold decoderDecode
  rw [if_neg (by rw [hlen]; omega), hlenfield, if_neg (by omega),
    if_neg (by rw [hlen]; omega), drop_app (natToLe_length 4 _), List.take_length,
    deserialize_serializeInto m hwf hm]
  have hdropall : (natToLe 4 m.serializeInto.length ++ m.serializeInto).drop
      (4 + m.serializeInto.length) = [] := by
    rw [drop_app_add m.serializeInto.length (natToLe_length 4 _), List.drop_length]
  rw [hdropall]

theorem encoderEncode_append (m : Message) (dst : List Nat) (h : 4 ≤ dst.length) :
    encoderEncode m dst =
      natToLe 4 (dst.length + m.serializeInto.length) ++
        (dst.drop 4 ++ (natToLe 4 0 ++ m.serializeInto)) := by
  unfold encoderEncode
  rw [List.append_assoc, List.drop_append_eq_append_drop, Nat.sub_eq_zero_of_le h,
    List.drop_zero,
    show (dst ++ (natToLe 4 0 ++ m.serializeInto)).length - 4 =
        dst.length + m.serializeInto.length by
      simp only [List.length_append, natToLe_length]
      omega]

/-! The ten claims, in order. -/

/-- C1 counterexample: the `Unused` variant (a variant of the `Message`
enumeration, trivially well-formed) serializes to ID 14, which
`Message::deserialize` rejects, so `decode(encode(M)) == M` fails for it. -/
theorem deserialize_serializeInto_unused_fails :
    Message.wf .unused ∧
      Message.deserialize (Message.serializeInto .unused) = .err "Invalid message ID" :=
  ⟨trivial, rfl⟩

/-- C1 (amended: every variant except the reserved `Unused`): for every
well-formed message M other than `Unused`, deserializing the bytes of
`serialize_into` yields a message structurally equal to M, deferred `Data`
fields being compared by their encoded byte buffers. -/
theorem deserialize_serializeInto_roundtrip (m : Message) (hwf : m.wf) (hm : m ≠ .unused) :
    ∃ m2, Message.deserialize m.serializeInto = .ok m2 ∧ msgEquiv m2 m :=
  ⟨m.decodeForm, deserialize_serializeInto m hwf hm, msgEquiv_decodeForm m⟩

/-- C1 witness: the round-trip theorem applied to a concrete Pong message
holding a decoded payload object. -/
theorem deserialize_serializeInto_roundtrip_witness :
    ∃ m2, Message.deserialize (Message.serializeInto (.pong (some true) (.object [7]))) =
      .ok m2 ∧ msgEquiv m2 (.pong (some true) (.object [7])) :=
  deserialize_serializeInto_roundtrip (.pong (some true) (.object [7])) (by decide) (by decide)

/-- C2 counterexample: a frame whose BlockRequest payload carries one byte
beyond the 8 eagerly-sliced bytes decodes successfully (the decoder reads
only `data[0..4]` and `data[4..8]`), but re-encoding drops the trailing
byte, so `encode(decode(B)) ≠ B` for this well-formed (decodable) frame. -/
theorem decode_encode_drops_trailing_byte :
    (decoderDecode defaultMaximumMessageSize
        [11, 0, 0, 0, 0, 0, 100, 0, 0, 0, 93, 1, 0, 0, 7]).result =
      .ok (some (.blockRequest 100 349)) ∧
    encoderEncode (.blockRequest 100 349) [] ≠
      [11, 0, 0, 0, 0, 0, 100, 0, 0, 0, 93, 1, 0, 0, 7] := by
  decide

/-- C2 (amended: frames that are canonical encodings): for every frame that
is the encoding of a well-formed non-`Unused` message within the size
ceiling, decoding yields a message that re-encodes to exactly the original
bytes — guaranteed because a `Buffer` `Data` field is written back
verbatim by `serialize_blocking_into` (last conjunct). -/
theorem decode_encode_byte_identity (m : Message) (hwf : m.wf) (hm : m ≠ .unused)
    (hfit : m.serializeInto.length ≤ defaultMaximumMessageSize) :
    decoderDecode defaultMaximumMessageSize (encoderEncode m []) =
      ⟨.ok (some m.decodeForm), [], none⟩ ∧
    encoderEncode m.decodeForm [] = encoderEncode m [] ∧
    ∀ bs, Data.serializeBlockingInto (.buffer bs) = bs := by
  have hsmall : m.serializeInto.length < 256 ^ 4 := by
    have hd : defaultMaximumMessageSize = 134217728 := rfl
    have hp : (256 : Nat) ^ 4 = 4294967296 := by norm_num
    omega
  refine ⟨decodeStep_frame m _ hwf hm hfit hsmall, ?_, fun bs => rfl⟩
  rw [encoderEncode_nil, encoderEncode_nil, serializeInto_decodeForm]

/-- C2 witness: the byte-identity theorem applied to a concrete
BlockResponse message carrying an encoded payload buffer. -/
theorem decode_encode_byte_identity_witness :
    decoderDecode defaultMaximumMessageSize
        (encoderEncode (.blockResponse (.buffer [9, 9])) []) =
      ⟨.ok (some (Message.decodeForm (.blockResponse (.buffer [9, 9])))), [], none⟩ ∧
    encoderEncode (Message.decodeForm (.blockResponse (.buffer [9, 9]))) [] =
      encoderEncode (.blockResponse (.buffer [9, 9])) [] ∧
    ∀ bs, Data.serializeBlockingInto (.buffer bs) = bs :=
  decode_encode_byte_identity (.blockResponse (.buffer [9, 9])) (by decide) (by decide)
    (by decide)

/-- C3: contrary to the never-panic claim, `Message::deserialize` panics
(out-of-bounds slice index) on payloads shorter than the eager fixed
region: a Pong with zero payload bytes (`data[0]`), a Ping with 47 payload
bytes (`&data[0..48]`), an UnconfirmedBlock with 35 payload bytes
(`&data[4..36]`); the frame decoder propagates the Pong panic. -/
theorem deserialize_short_payload_panics :
    Message.deserialize [8, 0] = .panicked ∧
    Message.deserialize (natToLe 2 7 ++ List.replicate 47 0) = .panicked ∧
    Message.deserialize (natToLe 2 9 ++ List.replicate 35 0) = .panicked ∧
    (decoderDecode defaultMaximumMessageSize [2, 0, 0, 0, 8, 0]).result = .panicked := by
  decide

/-- C4: whenever the 4-byte little-endian length marker exceeds
`MAXIMUM_MESSAGE_SIZE`, the first decode invocation fails with the
InvalidData frame-too-large error, regardless of how many payload bytes
have arrived (any `source` with at least the 4 marker bytes), leaves the
buffer unchanged, and never calls `reserve` for the payload region. -/
theorem decoder_rejects_oversized_frame (maxSize : Nat) (source : List Nat)
    (h4 : 4 ≤ source.length) (hbig : maxSize < leDecode (source.take 4)) :
    decoderDecode maxSize source = ⟨.err "Frame is too large", source, none⟩ := by
  unfold decoderDecode
  rw [if_neg (by omega), if_pos hbig]

/-- C4 witness: a bare length marker declaring 128 MiB + 1 with no payload
bytes at all is rejected at once under the default 128 MiB ceiling. -/
theorem decoder_rejects_oversized_frame_witness :
    decoderDecode defaultMaximumMessageSize (natToLe 4 (defaultMaximumMessageSize + 1)) =
      ⟨.err "Frame is too large", natToLe 4 (defaultMaximumMessageSize + 1), none⟩ :=
  decoder_rejects_oversized_frame defaultMaximumMessageSize
    (natToLe 4 (defaultMaximumMessageSize + 1)) (by decide) (by decide)

/-- C5: the encoder backfills the absolute first 4 bytes of the destination
buffer.  On an empty buffer this produces a correct frame (first
conjunct); on a buffer already holding at least 4 bytes (e.g. an earlier
unflushed frame), the prior content loses its first 4 bytes to a length
that covers the prior contents plus the new payload, while the new
payload keeps its 4 reserved zero bytes in the middle — violating the
frame format (second conjunct). -/
theorem encoder_backfills_first_four_bytes (m : Message) (dst : List Nat)
    (h : 4 ≤ dst.length) :
    encoderEncode m [] = natToLe 4 m.serializeInto.length ++ m.serializeInto ∧
    encoderEncode m dst =
      natToLe 4 (dst.length + m.serializeInto.length) ++
        (dst.drop 4 ++ (natToLe 4 0 ++ m.serializeInto)) :=
  ⟨encoderEncode_nil m, encoderEncode_append m dst h⟩

/-- C5 witness: encoding `Disconnect` into a buffer already holding the
frame `[2,0,0,0,4,0]` yields a corrupt buffer whose first 4 bytes read 8
and whose embedded second length marker is zero. -/
theorem encoder_backfills_first_four_bytes_witness :
    encoderEncode .disconnect [] =
      natToLe 4 (Message.serializeInto .disconnect).length ++
        Message.serializeInto .disconnect ∧
    encoderEncode .disconnect [2, 0, 0, 0, 4, 0] =
      natToLe 4 (([2, 0, 0, 0, 4, 0] : List Nat).length +
          (Message.serializeInto .disconnect).length) ++
        (([2, 0, 0, 0, 4, 0] : List Nat).drop 4 ++
          (natToLe 4 0 ++ Message.serializeInto .disconnect)) :=
  encoder_backfills_first_four_bytes .disconnect [2, 0, 0, 0, 4, 0] (by decide)

/-- C6: every strict prefix of a well-formed frame (the encoding of a
message within the size ceiling) makes the decoder yield "need more data"
(`Ok(None)`) with the readable buffer contents unchanged. -/
theorem decoder_partial_frame_needs_more (m : Message) (k : Nat)
    (hfit : m.serializeInto.length ≤ defaultMaximumMessageSize)
    (hk : k < (encoderEncode m []).length) :
    (decoderDecode defaultMaximumMessageSize ((encoderEncode m []).take k)).result =
      .ok none ∧
    (decoderDecode defaultMaximumMessageSize ((encoderEncode m []).take k)).source =
      (encoderEncode m []).take k := by
  have hsmall : m.serializeInto.length < 256 ^ 4 := by
    have hd : defaultMaximumMessageSize = 134217728 := rfl
    have hp : (256 : Nat) ^ 4 = 4294967296 := by norm_num
    omega
  rw [encoderEncode_nil] at hk ⊢
  rw [List.length_append, natToLe_length] at hk
  by_cases hk4 : k < 4
  · have hlen : ((natToLe 4 m.serializeInto.length ++ m.serializeInto).take k).length < 4 := by
      rw [List.length_take]
      omega
    unfold decoderDecode
    rw [if_pos hlen]
    exact ⟨rfl, rfl⟩
  · push_neg at hk4
    have htake : (natToLe 4 m.serializeInto.length ++ m.serializeInto).take k =
        natToLe 4 m.serializeInto.length ++ m.serializeInto.take (k - 4) := by
      rw [List.take_append_eq_append_take,
        List.take_of_length_le (by rw [natToLe_length]; omega), natToLe_length]
    have hpl : (natToLe 4 m.serializeInto.length ++ m.serializeInto.take (k - 4)).length =
        k := by
      rw [List.length_append, natToLe_length, List.length_take]
      omega
    rw [htake]
    unfold decoderDecode
    rw [if_neg (by rw [hpl]; omega), take_app (natToLe_length 4 _),
      leDecode_natToLe hsmall, if_neg (by omega), if_pos (by rw [hpl]; omega)]
    exact ⟨rfl, rfl⟩

/-- C6 witness: the 5-byte prefix of the 6-byte Disconnect frame yields
"need more data" and leaves the buffer as it was. -/
theorem decoder_partial_frame_needs_more_witness :
    (decoderDecode defaultMaximumMessageSize
        ((encoderEncode .disconnect []).take 5)).result = .ok none ∧
    (decoderDecode defaultMaximumMessageSize
        ((encoderEncode .disconnect []).take 5)).source =
      (encoderEncode .disconnect []).take 5 :=
  decoder_partial_frame_needs_more .disconnect 5 (by decide) (by decide)

/-- C7: the Pong is-fork field is one wire byte with None→0,
Some(true)→1, Some(false)→2 on encode; on decode the first payload byte
maps 0→None, 1→Some(true), 2→Some(false), and any other byte value is an
error. -/
theorem pong_is_fork_wire_mapping :
    (∀ loc : Data (List Nat), Message.serializeDataInto (.pong none loc) =
        0 :: loc.serializeBlockingInto) ∧
    (∀ loc : Data (List Nat), Message.serializeDataInto (.pong (some true) loc) =
        1 :: loc.serializeBlockingInto) ∧
    (∀ loc : Data (List Nat), Message.serializeDataInto (.pong (some false) loc) =
        2 :: loc.serializeBlockingInto) ∧
    (∀ rest : List Nat, Message.deserialize (8 :: 0 :: 0 :: rest) =
        .ok (.pong none (.buffer rest))) ∧
    (∀ rest : List Nat, Message.deserialize (8 :: 0 :: 1 :: rest) =
        .ok (.pong (some true) (.buffer rest))) ∧
    (∀ rest : List Nat, Message.deserialize (8 :: 0 :: 2 :: rest) =
        .ok (.pong (some false) (.buffer rest))) ∧
    (∀ b rest, 3 ≤ b → (Message.deserialize (8 :: 0 :: b :: rest)).isErr = true) := by
  refine ⟨fun loc => rfl, fun loc => rfl, fun loc => rfl, fun rest => rfl, fun rest => rfl,
    fun rest => rfl, fun b rest hb => ?_⟩
  rw [deserialize_cons, show (8 + 256 * 0 : Nat) = 8 from rfl, dwi8]
  show (if b = 0 then RustResult.ok (Message.pong none (Data.buffer rest))
    else if b = 1 then RustResult.ok (Message.pong (some true) (Data.buffer rest))
    else if b = 2 then RustResult.ok (Message.pong (some false) (Data.buffer rest))
    else RustResult.err "Invalid Pong message").isErr = true
  rw [if_neg (by omega), if_neg (by omega), if_neg (by omega)]
  rfl

/-- C7 witness: the out-of-range discriminant 3 is rejected with an error. -/
theorem pong_is_fork_wire_mapping_witness :
    (Message.deserialize (8 :: 0 :: 3 :: [])).isErr = true :=
  pong_is_fork_wire_mapping.2.2.2.2.2.2 3 [] (by decide)

/-- C8: every 16-bit ID in 0..=13 dispatches to a variant decoder that can
succeed and reproduces the same ID; ID 14 is the reserved `Unused` ID,
which the decoder rejects; and every ID from 15 up yields the
invalid-message error. -/
theorem message_id_dispatch :
    (∀ i, i ≤ 13 → ∃ d m, Message.deserialize (natToLe 2 i ++ d) = .ok m ∧ m.id = i) ∧
    Message.unused.id = 14 ∧
    (∀ d, (Message.deserialize (natToLe 2 14 ++ d)).isErr = true) ∧
    (∀ i d, 15 ≤ i → i < 65536 →
      (Message.deserialize (natToLe 2 i ++ d)).isErr = true) := by
  refine ⟨?_, rfl, ?_, ?_⟩
  · intro i hi
    interval_cases i
    · exact ⟨List.replicate 8 0, .blockRequest 0 0, by decide, rfl⟩
    · exact ⟨[], .blockResponse (.buffer []), by decide, rfl⟩
    · exact ⟨List.replicate 42 0, .challengeRequest 0 0 .Client .Ready 0 0 0, by decide, rfl⟩
    · exact ⟨[], .challengeResponse (.buffer []), by decide, rfl⟩
    · exact ⟨[], .disconnect, by decide, rfl⟩
    · exact ⟨[], .peerRequest, by decide, rfl⟩
    · exact ⟨List.replicate 8 0, .peerResponse [], by decide, rfl⟩
    · exact ⟨List.replicate 48 0,
        .ping 0 0 .Client .Ready (List.replicate 32 0) (.buffer []), by decide, rfl⟩
    · exact ⟨[0], .pong none (.buffer []), by decide, rfl⟩
    · exact ⟨List.replicate 36 0,
        .unconfirmedBlock 0 (List.replicate 32 0) (.buffer []), by decide, rfl⟩
    · exact ⟨[], .unconfirmedTransaction [], by decide, rfl⟩
    · exact ⟨List.replicate 32 0, .poolRegister (List.replicate 32 0), by decide, rfl⟩
    · exact ⟨List.replicate 8 0, .poolRequest 0 (.buffer []), by decide, rfl⟩
    · exact ⟨List.replicate 64 0,
        .poolResponse (List.replicate 32 0) (List.replicate 32 0) (.buffer []),
        by decide, rfl⟩
  · intro d
    rw [show natToLe 2 14 = [14, 0] from rfl, List.cons_append, List.cons_append,
      List.nil_append, deserialize_cons, show (14 + 256 * 0 : Nat) = 14 from rfl]
    unfold Message.deserializeWithId
    repeat rw [if_neg (by omega)]
    rfl
  · intro i d h15 h16
    rw [show natToLe 2 i = [i % 256, i / 256 % 256] from rfl, List.cons_append,
      List.cons_append, List.nil_append, deserialize_cons,
      show i % 256 + 256 * (i / 256 % 256) = i by omega]
    unfold Message.deserializeWithId
    repeat rw [if_neg (by omega)]
    rfl

/-- C8 witness: ID 0 admits a successful decode with matching ID. -/
theorem message_id_dispatch_witness :
    ∃ d m, Message.deserialize (natToLe 2 0 ++ d) = .ok m ∧ m.id = 0 :=
  message_id_dispatch.1 0 (by decide)

/-- C9 counterexample: for 4 CPUs the pool gets `4 * 7 / 8 = 3` threads
(flooring integer division), not the claimed `max 2 ⌈7·4/8⌉ = 4`. -/
theorem thread_pool_not_ceiling :
    ¬ (threadPoolNumThreads 4 = max 2 ((7 * 4 + 7) / 8)) := by
  decide

/-- C9 (amended: flooring division): the dedicated pool uses an 8 MiB
per-thread stack and `max 2 (cpus * 7 / 8)` threads — the floor, not the
ceiling, of 7/8 of the CPU count, with a floor of 2. -/
theorem thread_pool_sizing :
    threadPoolStackSize = 8 * 1024 * 1024 ∧
    (∀ cpus, threadPoolNumThreads cpus = max 2 (cpus * 7 / 8)) ∧
    (∀ cpus, 2 ≤ threadPoolNumThreads cpus) := by
  refine ⟨rfl, fun c => ?_, fun c => ?_⟩
  · unfold threadPoolNumThreads
    omega
  · unfold threadPoolNumThreads
    omega

/-- Spec-side definition (from the role preset table of the spec): the four
tabulated constants of a preset. -/
abbrev matchesTableRow (e : EnvConfig) (minP maxP : Nat) (coin : Bool) (hb : Nat) : Prop :=
  e.minimumNumberOfPeers = minP ∧ e.maximumNumberOfPeers = maxP ∧
    e.coinbaseIsPublic = coin ∧ e.heartbeatInSecs = hb

/-- Spec-side definition (from the spec list of default constants): all
remaining constants carry the trait defaults.  `SYNC_NODES` is stated
separately because the Trial presets override it. -/
abbrev otherConstantsDefault (e : EnvConfig) : Prop :=
  e.messageVersion = 12 ∧ e.connectionTimeoutInMillis = 500 ∧ e.pingSleepInSecs = 60 ∧
    e.radioSilenceInSecs = 210 ∧ e.failureExpiryTimeInSecs = 7200 ∧
    e.maximumConnectionFailures = 3 ∧ e.maximumCandidatePeers = 10000 ∧
    e.maximumMessageSize = 128 * 1024 * 1024 ∧ e.maximumBlockRequest = 250 ∧
    e.maximumNumberOfFailures = 1024 ∧ e.beaconNodes = []

/-- C10 counterexample: `ClientTrial` does not inherit the default
`SYNC_NODES`, so "all other constants inherit the defaults" fails. -/
theorem clientTrial_syncNodes_not_default :
    clientTrialEnv.syncNodes ≠ defaultSyncNodes := by
  decide

set_option synthInstance.maxSize 1000 in
/-- C10 (amended: all other constants inherit the defaults except that the
four Trial presets override `SYNC_NODES` with the hard-coded trial
bootstrap list): every preset matches its table row
(MIN peers / MAX peers / COINBASE_IS_PUBLIC / HEARTBEAT_IN_SECS), all
remaining constants are the trait defaults, and in particular
`HEARTBEAT_IN_SECS` is 5 for `SyncNode` and 9 for `Client`. -/
theorem role_preset_table :
    (matchesTableRow clientEnv 2 21 false 9 ∧ otherConstantsDefault clientEnv ∧
      clientEnv.syncNodes = defaultSyncNodes) ∧
    (matchesTableRow minerEnv 1 21 true 9 ∧ otherConstantsDefault minerEnv ∧
      minerEnv.syncNodes = defaultSyncNodes) ∧
    (matchesTableRow operatorEnv 1 1000 true 9 ∧ otherConstantsDefault operatorEnv ∧
      operatorEnv.syncNodes = defaultSyncNodes) ∧
    (matchesTableRow proverEnv 1 21 true 9 ∧ otherConstantsDefault proverEnv ∧
      proverEnv.syncNodes = defaultSyncNodes) ∧
    (matchesTableRow syncNodeEnv 35 1024 false 5 ∧ otherConstantsDefault syncNodeEnv ∧
      syncNodeEnv.syncNodes = defaultSyncNodes) ∧
    (matchesTableRow clientTrialEnv 11 31 false 9 ∧ otherConstantsDefault clientTrialEnv ∧
      clientTrialEnv.syncNodes = trialSyncNodes) ∧
    (matchesTableRow minerTrialEnv 11 21 true 9 ∧ otherConstantsDefault minerTrialEnv ∧
      minerTrialEnv.syncNodes = trialSyncNodes) ∧
    (matchesTableRow operatorTrialEnv 11 1000 true 9 ∧
      otherConstantsDefault operatorTrialEnv ∧
      operatorTrialEnv.syncNodes = trialSyncNodes) ∧
    (matchesTableRow proverTrialEnv 11 21 true 9 ∧ otherConstantsDefault proverTrialEnv ∧
      proverTrialEnv.syncNodes = trialSyncNodes) := by
  decide

end Snarkos
